import Mathlib

/-!
# Verification of the SpectraSpark radial-integration core (`saxs/qi2d.py`)

This file shallowly embeds the radial-integration pipeline of
`src/SpectraSpark/saxs/qi2d.py` and proves/refutes the frozen claims about it.

Modelling conventions:
* `numpy` float64 scalars are modelled by the inductive `Fp` (exact rationals
  plus the special values NaN, +inf, -inf); where a code path only ever sees
  ordinary finite values we use `ℚ` directly.  Signed zero is not modelled.
* 2D arrays (`np.ndarray`) are modelled as a pair of dimensions together with
  a total indexing function (`Image`, `FImage`, `PyMask`).
* The beam-center coordinates are modelled on the integer grid, following the
  declared parameter types of `_radial_average` (`center_x : int`,
  `center_y : int` in its docstring).  `int()` applied to a non-negative
  float is floor, so `int(sqrt(d))` for a natural `d` is `Nat.sqrt d`.
* I/O (reading frames, `savetxt`, `write_json`, the `tqdm` progress bar and
  the `warnings.warn` call) is modelled as a trace of `Effect`s produced by
  the pipeline; Python exceptions become `Except Err` results.
* External collaborators (`cv2.imread`, `listFiles`) are modelled as fields
  of an abstract file system `Fs`; the geometric conversion `r2q` (from
  `SpectraSpark.util.basic_calculation`, not part of the sources) is passed
  in as an opaque function argument.
-/

namespace SpectraSpark

/-! ## A minimal model of float64 special values -/

/-- Model of a `numpy` float64 scalar: an exact rational, or one of the
special values NaN, +inf, -inf.  Signed zeros and rounding are not modelled;
the code under verification only performs comparisons, NaN-tests and
arithmetic whose special-value behaviour is what matters here. -/
inductive Fp where
  | nan : Fp
  | inf : Fp
  | ninf : Fp
  | val (q : ℚ) : Fp
deriving DecidableEq

/-- `np.isnan` -/
def Fp.isNan : Fp → Bool
  | .nan => true
  | _ => false

/-- `np.isfinite` -/
def Fp.isFinite : Fp → Bool
  | .val _ => true
  | _ => false

/-- Python `x > 0` on a float (False for NaN). -/
def Fp.gtZero : Fp → Bool
  | .nan => false
  | .inf => true
  | .ninf => false
  | .val q => decide (0 < q)

/-- IEEE-style addition on the model. -/
def Fp.add : Fp → Fp → Fp
  | .nan, _ => .nan
  | _, .nan => .nan
  | .inf, .ninf => .nan
  | .ninf, .inf => .nan
  | .inf, _ => .inf
  | _, .inf => .inf
  | .ninf, _ => .ninf
  | _, .ninf => .ninf
  | .val a, .val b => .val (a + b)

/-- IEEE-style multiplication on the model. -/
def Fp.mul : Fp → Fp → Fp
  | .nan, _ => .nan
  | _, .nan => .nan
  | .inf, .inf => .inf
  | .inf, .ninf => .ninf
  | .ninf, .inf => .ninf
  | .ninf, .ninf => .inf
  | .inf, .val b => if 0 < b then .inf else if b < 0 then .ninf else .nan
  | .val a, .inf => if 0 < a then .inf else if a < 0 then .ninf else .nan
  | .ninf, .val b => if 0 < b then .ninf else if b < 0 then .inf else .nan
  | .val a, .ninf => if 0 < a then .ninf else if a < 0 then .inf else .nan
  | .val a, .val b => .val (a * b)

/-- IEEE-style division on the model (in particular `0/0 = NaN`,
which is the behaviour `Saxs2d.radial_average` relies on for empty bins). -/
def Fp.div : Fp → Fp → Fp
  | .nan, _ => .nan
  | _, .nan => .nan
  | .inf, .inf => .nan
  | .inf, .ninf => .nan
  | .ninf, .inf => .nan
  | .ninf, .ninf => .nan
  | .inf, .val b => if b < 0 then .ninf else .inf
  | .ninf, .val b => if b < 0 then .inf else .ninf
  | .val _, .inf => .val 0
  | .val _, .ninf => .val 0
  | .val a, .val b =>
      if b = 0 then (if a = 0 then .nan else if 0 < a then .inf else .ninf)
      else .val (a / b)

/-! ## Images and the pixel geometry shared by both averaging kernels -/

/-- A 2D detector image with ordinary (finite) intensities:
`pix y x` is the value at row `y`, column `x` (numpy `img[y, x]`). -/
structure Image where
  height : Nat
  width : Nat
  pix : Nat → Nat → ℚ

/-- All pixel coordinates `(x, y)` of a `w × h` image, in the iteration
order of the kernel loop (`for x in range(width): for y in range(height)`). -/
def pixelList (w h : Nat) : List (Nat × Nat) :=
  ((List.range w).map (fun x => (List.range h).map (fun y => (x, y)))).flatten

/-- Squared Euclidean distance of pixel `p = (x, y)` from the beam center
`(cx, cy)`; the summands are squares so the `Int.toNat` is lossless. -/
def distSq (cx cy : ℤ) (p : Nat × Nat) : ℕ :=
  (((p.1 : ℤ) - cx) ^ 2 + ((p.2 : ℤ) - cy) ^ 2).toNat

/-- Integer square root by bounded search: the largest `k ≤ n` with
`k * k ≤ n`.  This is extensionally `Nat.sqrt` (see `isqrt_eq_sqrt`), but
unlike `Nat.sqrt` it is defined by structural recursion and therefore
evaluates inside the kernel, which the concrete witnesses below need. -/
def isqrt (n : ℕ) : ℕ :=
  (List.range (n + 1)).foldl (fun acc k => if k * k ≤ n then k else acc) 0

/-- `int(r_mesh[y, x])`: the floor of the pixel's Euclidean distance from
the center, i.e. the integer square root of the squared distance. -/
def floorDist (cx cy : ℤ) (p : Nat × Nat) : ℕ :=
  isqrt (distSq cx cy p)

/-- Minimum of a list of naturals (`0` for the empty list; the kernel is
only ever called on non-empty images). -/
def listMin : List ℕ → ℕ
  | [] => 0
  | a :: t => t.foldl Nat.min a

/-- Maximum of a list of naturals (`0` for the empty list). -/
def listMax : List ℕ → ℕ
  | [] => 0
  | a :: t => t.foldl Nat.max a

/-! ## `_radial_average` (qi2d.py lines 13-62) -/

/-- `min_r = int(r_mesh.min())`.  Since `floor` is monotone, the floor of
the minimum distance is the minimum of the per-pixel floors. -/
def minR (img : Image) (cx cy : ℤ) : ℕ :=
  listMin ((pixelList img.width img.height).map (floorDist cx cy))

/-- `int(r_mesh.max())`, the floor of the maximum distance. -/
def maxRf (img : Image) (cx cy : ℤ) : ℕ :=
  listMax ((pixelList img.width img.height).map (floorDist cx cy))

/-- `r_range = max_r - min_r + 1` with `max_r = int(r_mesh.max()) + 1`:
the number of radius bins of `_radial_average`. -/
def rRange (img : Image) (cx cy : ℤ) : ℕ :=
  maxRf img cx cy + 1 - minR img cx cy + 1

/-- The pixels accumulated into bin `idx`: the loop body at qi2d.py:47-53
skips a pixel iff `not img[y, x] >= threshold` and otherwise adds it to bin
`int(r_mesh[y, x]) - min_r`. -/
def binPixels (img : Image) (cx cy : ℤ) (t : ℚ) (idx : ℕ) : List (Nat × Nat) :=
  (pixelList img.width img.height).filter
    (fun p => decide (t ≤ img.pix p.2 p.1) && (floorDist cx cy p == minR img cx cy + idx))

/-- `cnt[idx]` after the accumulation loop. -/
def cntAt (img : Image) (cx cy : ℤ) (t : ℚ) (idx : ℕ) : ℕ :=
  (binPixels img cx cy t idx).length

/-- The running sum `i[idx]` after the accumulation loop (before averaging). -/
def sumAt (img : Image) (cx cy : ℤ) (t : ℚ) (idx : ℕ) : ℚ :=
  ((binPixels img cx cy t idx).map (fun p => img.pix p.2 p.1)).sum

/-- `i[idx]` after the normalisation loop at qi2d.py:55-59:
`sum/cnt` when the bin is populated, and an explicit `0` otherwise. -/
def iAt (img : Image) (cx cy : ℤ) (t : ℚ) (idx : ℕ) : ℚ :=
  if cntAt img cx cy t idx = 0 then 0
  else sumAt img cx cy t idx / (cntAt img cx cy t idx : ℚ)

/-- `_radial_average(img, center_x, center_y, threshold)`: returns the radius
array `r = min_r + 0.5 + np.arange(len(cnt))` and the averaged intensities. -/
def radialAverage (img : Image) (cx cy : ℤ) (t : ℚ) : List ℚ × List ℚ :=
  ((List.range (rRange img cx cy)).map
     (fun k : ℕ => (minR img cx cy : ℚ) + 1/2 + (k : ℚ)),
   (List.range (rRange img cx cy)).map (fun k => iAt img cx cy t k))

/-- `img * mask`: elementwise product (numpy broadcasting is not needed,
the caller has already checked that the shapes coincide). -/
def imgMul (img mask : Image) : Image :=
  ⟨img.height, img.width, fun y x => img.pix y x * mask.pix y x⟩

/-- `_mask_and_average(img, mask, center_x, center_y, threshold)`
(qi2d.py lines 64-66): radial average of the elementwise product. -/
def maskAndAverage (img mask : Image) (cx cy : ℤ) (t : ℚ) : List ℚ × List ℚ :=
  radialAverage (imgMul img mask) cx cy t

/-! ## `Saxs2d.radial_average` (qi2d.py lines 301-321)

This is the coarser, histogram-based averaging path.  Its pixel values may be
`np.nan` (the class docstring: missing values are `np.nan`), so intensities
are modelled with `Fp`.  We model the method at its default arguments
`q_min = 0`, `q_max = np.inf` (so `r_min = int(np.floor(0 / px2q)) = 0` for
any positive `px2q`, and `r_max = int(np.ceil(r.max()))`). -/

/-- `⌈√n⌉` for a natural `n`: `isqrt n` when `n` is a perfect square and
`isqrt n + 1` otherwise. -/
def ceilSqrt (n : ℕ) : ℕ :=
  if isqrt n * isqrt n = n then isqrt n else isqrt n + 1

/-- A 2D image whose entries may be NaN (`Saxs2d.__i`). -/
structure FImage where
  height : Nat
  width : Nat
  pix : Nat → Nat → Fp

/-- `r_max = int(np.ceil(r.max()))` (computed before the NaN pixels are
knocked out, qi2d.py:310): the ceiling of the maximal pixel distance. -/
def s2dRmax (f : FImage) (cx cy : ℤ) : ℕ :=
  ceilSqrt (listMax ((pixelList f.width f.height).map (distSq cx cy)))

/-- Membership of a pixel with squared distance `n` in histogram bin `j`
for edges `0, 1, ..., rmax` (`np.histogram` uses half-open bins with a
closed last bin): `j ≤ √n < j+1` for `j < rmax - 1`, and
`rmax-1 ≤ √n ≤ rmax` for the last bin. -/
def s2dBinB (rmax j n : ℕ) : Bool :=
  if j + 1 = rmax then decide (j ^ 2 ≤ n ∧ n ≤ rmax ^ 2) else isqrt n == j

/-- Pixels counted in bin `j`: NaN-valued pixels have their radius set to
NaN (qi2d.py:313) and therefore fall into no bin. -/
def s2dBinPixels (f : FImage) (cx cy : ℤ) (j : ℕ) : List (Nat × Nat) :=
  (pixelList f.width f.height).filter
    (fun p => !(f.pix p.2 p.1).isNan && s2dBinB (s2dRmax f cx cy) j (distSq cx cy p))

/-- `cnt[j] = np.histogram(r, bins=r_bin)[0][j]`. -/
def s2dCnt (f : FImage) (cx cy : ℤ) (j : ℕ) : ℕ :=
  (s2dBinPixels f cx cy j).length

/-- `i_sum[j] = np.histogram(r, bins=r_bin, weights=i)[0][j]`. -/
def s2dSum (f : FImage) (cx cy : ℤ) (j : ℕ) : Fp :=
  ((s2dBinPixels f cx cy j).map (fun p => f.pix p.2 p.1)).foldl Fp.add (Fp.val 0)

/-- `i[j] = i_sum[j] / cnt[j]` — float division, so an empty bin yields
`0.0 / 0 = NaN` (the `RuntimeWarning` is suppressed in the source). -/
def s2dIntensity (f : FImage) (cx cy : ℤ) (j : ℕ) : Fp :=
  Fp.div (s2dSum f cx cy j) (Fp.val (s2dCnt f cx cy j))

/-- `Saxs2d.radial_average(q_min=0, q_max=inf)`: the averaged intensities and
the q-bin centers `(q_bin[:-1] + q_bin[1:]) / 2` with `q_bin = r_bin * px2q`. -/
def s2dRadialAverage (f : FImage) (px2q : ℚ) (cx cy : ℤ) : List Fp × List ℚ :=
  ((List.range (s2dRmax f cx cy)).map (fun j => s2dIntensity f cx cy j),
   (List.range (s2dRmax f cx cy)).map
     (fun j : ℕ => ((j : ℚ) + ((j : ℚ) + 1)) / 2 * px2q))

/-! ## The `Mask` class (qi2d.py lines 240-280) -/

/-- The `Mask` class: `grid` is the private uint8 array `self.__mask`. -/
structure PyMask where
  height : Nat
  width : Nat
  grid : Nat → Nat → ℕ

/-- Normalisation of one endpoint of a Python slice `a:b` on an axis of
length `n`: negative indices count from the end, then the result is clamped
into `[0, n]`. -/
def normIdx (n : ℕ) (v : ℤ) : ℕ :=
  min (if v < 0 then v + (n : ℤ) else v).toNat n

/-- Membership of index `i` in the Python slice `a:b` (step 1) on an axis of
length `n`. -/
def sliceMem (n : ℕ) (a b : ℤ) (i : ℕ) : Bool :=
  decide (normIdx n a ≤ i) && decide (i < normIdx n b)

/-- `Mask.add_rectangle(x, y, width, height)`:
`self.__mask[y:y+height, x:x+width] = 0` (qi2d.py:266-268). -/
def PyMask.addRectangle (m : PyMask) (x y w h : ℤ) : PyMask :=
  ⟨m.height, m.width, fun yy xx =>
    if sliceMem m.height y (y + h) yy && sliceMem m.width x (x + w) xx then 0
    else m.grid yy xx⟩

/-- `Mask.remove_rectangle(x, y, width, height)`:
`self.__mask[y:y+height, x:x+width] = 1` (qi2d.py:270-272). -/
def PyMask.removeRectangle (m : PyMask) (x y w h : ℤ) : PyMask :=
  ⟨m.height, m.width, fun yy xx =>
    if sliceMem m.height y (y + h) yy && sliceMem m.width x (x + w) xx then 1
    else m.grid yy xx⟩

/-- A single-channel image file on disk.  `Mask.save` writes through
`cv2.imwrite` and `Mask.read` loads through `cv2.imread`; per spec §6 the
mask file format is a faithful single-channel raster, so the codec is
modelled as storing the uint8 array as-is. -/
structure StoredImage where
  height : Nat
  width : Nat
  px : Nat → Nat → ℕ

/-- `Mask.save(file)` (qi2d.py:274-276): writes the raw `__mask` array. -/
def PyMask.save (m : PyMask) : StoredImage :=
  ⟨m.height, m.width, m.grid⟩

/-- `_readmask` normalisation (qi2d.py:74): `mask[mask > 0] = 1`. -/
def readmaskGrid (s : StoredImage) : Nat → Nat → ℕ :=
  fun y x => if 0 < s.px y x then 1 else 0

/-- `Mask.read(src)` (qi2d.py:278-280): `Mask(value=_readmask(src))`. -/
def PyMask.read (s : StoredImage) : PyMask :=
  ⟨s.height, s.width, readmaskGrid s⟩

/-- The `Mask.value` property (qi2d.py:251-253): the binary 0/1 pattern
`(self.__mask > 0).astype(uint8)`. -/
def PyMask.value (m : PyMask) : Nat → Nat → ℕ :=
  fun y x => if 0 < m.grid y x then 1 else 0

/-! ## String helpers

In this toolchain `String` is a structure over `List Char`, but several core
string functions are defined by well-founded recursion and do not reduce in
the kernel, so the pipeline uses these plain list-based equivalents. -/

/-- Python `c in s` for a single character. -/
def strHasChar (s : String) (c : Char) : Bool :=
  s.data.contains c

/-- Python `s.endswith(suffix)`. -/
def strEndsWith (s suffix : String) : Bool :=
  suffix.data.isSuffixOf s.data

/-- Python `s.upper()` (ASCII identifiers only are relevant here). -/
def strToUpper (s : String) : String :=
  ⟨s.data.map Char.toUpper⟩

/-- `os.path.basename`: everything after the last `/`. -/
def basename (s : String) : String :=
  ⟨s.data.foldl (fun acc c => if c = '/' then [] else acc ++ [c]) []⟩

/-- Worker for `strReplace`, with enough fuel to scan the whole list: each
step consumes at least one character and one unit of fuel. -/
def replAux (pat rep : List Char) : Nat → List Char → List Char
  | 0, l => l
  | _ + 1, [] => []
  | fuel + 1, c :: rest =>
    if !pat.isEmpty && pat.isPrefixOf (c :: rest) then
      rep ++ replAux pat rep fuel (List.drop pat.length (c :: rest))
    else c :: replAux pat rep fuel rest

/-- Python `s.replace(pat, rep)`: replace every (left-to-right,
non-overlapping) occurrence. -/
def strReplace (s pat rep : String) : String :=
  ⟨replAux pat.data rep.data s.data.length s.data⟩

/-- `re.sub(r"\.tif$", ".csv", s)` under the guard `s.endswith(".tif")`. -/
def replaceTifCsv (s : String) : String :=
  ⟨s.data.take (s.data.length - 4) ++ ".csv".data⟩

/-- `os.path.join` for the relative paths used by the pipeline. -/
def pathJoin (d f : String) : String :=
  d ++ "/" ++ f

/-! ## The batch pipeline `series_integrate` (qi2d.py lines 85-238)

The pipeline's observable behaviour is modelled as a pair of an effect trace
(file reads, progress-bar calls, the calibration warning, and the two output
writes) and either a raised exception (`Err`) or the returned value. -/

/-- The Python exceptions raised by the pipeline, with their messages.
The spec's error taxonomy maps onto these:
`NotFound`/`NoInputFiles` are `FileNotFoundError`; `OutputExists` is
`FileExistsError`; `InvalidInput`, `ShapeMismatch`, `MissingCalibration`,
`UnknownDetector` and `MissingDestination` are `ValueError`s distinguished
by message. -/
inductive Err where
  | fileNotFound (msg : String)
  | valueError (msg : String)
  | fileExists (msg : String)
deriving DecidableEq

/-- The dictionary written to the `_params.json` sibling file
(qi2d.py:215-233). -/
structure ParamsRec where
  centerX : ℤ
  centerY : ℤ
  calibrationType : String
  pxSize : Fp
  cameraLength : Fp
  waveLength : Fp
  slope : Fp
  intercept : Fp
  flip : String
deriving DecidableEq

/-- Observable side effects of one pipeline run, in program order. -/
inductive Effect where
  | barInit (n : ℕ)
  | barUpdate
  | barClose
  | warnCal
  | readFrame (path : String)
  | writeTable (path : String) (headers : List String) (q : List Fp) (cols : List (List ℚ))
  | writeJson (path : String) (params : ParamsRec)
deriving DecidableEq

/-- The external world: file existence, directory listing (`listFiles`,
an external collaborator) and frame loading (`cv2.imread`). -/
structure Fs where
  pathExists : String → Bool
  isDir : String → Bool
  listTifs : String → List String
  readImg : String → Image

/-- The `src` argument: a single path or an explicit list of frame paths. -/
inductive Src where
  | strSrc (s : String)
  | listSrc (l : List String)

/-- The keyword arguments of `series_integrate`, with their Python defaults.
The beam center is on the integer grid (see the header comment); its Python
default `(nan, nan)` is therefore not representable and callers of the model
always supply a center, which no claim under check depends on. -/
structure Cfg where
  maskSrc : String := ""
  maskArr : Option Image := none
  centerX : ℤ
  centerY : ℤ
  cameraLength : Fp := .nan
  waveLength : Fp := .nan
  pxSize : Fp := .nan
  detecter : String := ""
  slope : Fp := .nan
  intercept : Fp := .nan
  flip : String := "vertical"
  dst : String := ""
  overwrite : Bool := false
  verbose : Bool := true

/-- Input-set and destination resolution (qi2d.py:122-144), including the
`n_files == 0` check.  For an explicit empty list the message interpolates
the Python list literal, hence `[]`. -/
def resolveFiles (fs : Fs) (src : Src) (dst : String) : Except Err (List String × String) :=
  match src with
  | .strSrc s =>
    if strEndsWith s ".tif" then
      if !fs.pathExists s then .error (.fileNotFound (s ++ " is not found."))
      else .ok ([s], if dst ≠ "" then dst else replaceTifCsv s)
    else if !fs.isDir s then .error (.fileNotFound (s ++ " is not found."))
    else
      let files := (fs.listTifs s).map (pathJoin s)
      if files.length = 0 then .error (.fileNotFound ("No tif files in " ++ s ++ "."))
      else .ok (files, if dst ≠ "" then dst else s ++ ".csv")
  | .listSrc l =>
    if l.any (fun f => !strEndsWith f ".tif") then
      .error (.valueError "Unsupported file format: only .tif is supported")
    else if dst = "" then .error (.valueError "dst to save results must be set")
    else if l.length = 0 then .error (.fileNotFound "No tif files in [].")
    else .ok (l, dst)

/-- Modelled from the spec: the table `DETECTER_PX_SIZES` lives in
`SpectraSpark.constants`, which is not among the given sources.  Per spec
§4.3 and the docstring (detector name PILATUS or EIGER) it maps the
recognised upper-case detector identifiers to their pixel sizes in mm
(PILATUS: 0.172, as also witnessed by `PILATUS_PX_SIZE`; EIGER: 0.075). -/
def DETECTER_PX_SIZES (s : String) : Option ℚ :=
  if s = "PILATUS" then some (43/250)
  else if s = "EIGER" then some (3/40)
  else none

/-- Pixel-size resolution (qi2d.py:155-161). -/
def resolvePx (detecter : String) (pxSize : Fp) : Except Err Fp :=
  match DETECTER_PX_SIZES (strToUpper detecter) with
  | some v => .ok (.val v)
  | none =>
    if detecter = "" then
      if pxSize.isNan then
        .error (.valueError "either `px_size` or `detecter` must be set")
      else .ok pxSize
    else .error (.valueError ("unrecognized detecter `" ++ detecter ++ "`"))

/-- The three calibration modes (`calibration` in the source is the string
`"geometry"`, `"linear_regression"` or `"none"`). -/
inductive CalibMode where
  | geometry
  | linearRegression
  | noCalib
deriving DecidableEq

/-- Calibration-mode resolution (qi2d.py:163-169). -/
def resolveCalib (cl wl s i : Fp) : CalibMode :=
  if cl.gtZero && wl.gtZero then .geometry
  else if !s.isNan && !i.isNan then .linearRegression
  else .noCalib

/-- The string stored in the parameter record. -/
def calibLabel : CalibMode → String
  | .geometry => "geometry"
  | .linearRegression => "linear_regression"
  | .noCalib => "none"

/-- The `warnings.warn("no valid calibration parameter given")` call fires
exactly on the fall-through branch (qi2d.py:168-169). -/
def calibWarnTrace (c : CalibMode) : List Effect :=
  if c = .noCalib then [.warnCal] else []

/-- `np.flipud`. -/
def applyFlipV (img : Image) : Image :=
  ⟨img.height, img.width, fun y x => img.pix (img.height - 1 - y) x⟩

/-- `np.fliplr`. -/
def applyFlipH (img : Image) : Image :=
  ⟨img.height, img.width, fun y x => img.pix y (img.width - 1 - x)⟩

/-- Per-frame flipping (qi2d.py:189-192), selected by substring membership
in the flip token. -/
def applyFlip (flip : String) (img : Image) : Image :=
  let i1 := if strHasChar flip 'v' then applyFlipV img else img
  if strHasChar flip 'h' then applyFlipH i1 else i1

/-- The flip label recorded in the parameter file (qi2d.py:225-233). -/
def flipLabel (flip : String) : String :=
  if strHasChar flip 'v' && strHasChar flip 'h' then "vertical and horizontal"
  else if strHasChar flip 'v' then "vertical"
  else if strHasChar flip 'h' then "horizontal"
  else "none"

/-- `_readmask` normalisation on an in-memory image: `mask[mask > 0] = 1`. -/
def normalizeMask (img : Image) : Image :=
  ⟨img.height, img.width, fun y x => if 0 < img.pix y x then 1 else img.pix y x⟩

/-- Mask resolution (qi2d.py:172-182): an in-memory mask array takes
precedence over a mask file path; shapes are checked against the first
frame. -/
def resolveMask (fs : Fs) (cfg : Cfg) (h w : Nat) : Except Err (Option Image) :=
  match cfg.maskArr with
  | some m =>
    if m.height = h ∧ m.width = w then .ok (some m)
    else .error (.valueError "mask size not match.")
  | none =>
    if cfg.maskSrc ≠ "" then
      if !fs.pathExists cfg.maskSrc then
        .error (.fileNotFound (cfg.maskSrc ++ " is not found."))
      else
        let m := normalizeMask (fs.readImg cfg.maskSrc)
        if m.height = h ∧ m.width = w then .ok (some m)
        else .error (.valueError ("mask size not match. " ++ cfg.maskSrc))
    else .ok none

/-- The per-frame loop (qi2d.py:184-200): read, shape-check (the error
message names the offending file), flip, radially average (threshold left
at its default 2), collect the intensity column and the base-name header.
The returned radius column is the one from the last processed frame, as in
the source where `r` is overwritten on every iteration. -/
def processFrames (fs : Fs) (cfg : Cfg) (maskOpt : Option Image) (h w : Nat) :
    List String → List Effect × Except Err (List ℚ × List (List ℚ) × List String)
  | [] => ([], .ok ([], [], []))
  | f :: rest =>
    let img := fs.readImg f
    if img.height = h ∧ img.width = w then
      let img2 := applyFlip cfg.flip img
      let ri :=
        match maskOpt with
        | some m => maskAndAverage img2 m cfg.centerX cfg.centerY 2
        | none => radialAverage img2 cfg.centerX cfg.centerY 2
      let bu := if cfg.verbose then [Effect.barUpdate] else []
      match processFrames fs cfg maskOpt h w rest with
      | (t, .error e) => (Effect.readFrame f :: bu ++ t, .error e)
      | (t, .ok (rL, iAll, hs)) =>
          (Effect.readFrame f :: bu ++ t,
           .ok (if rest.isEmpty then ri.1 else rL, ri.2 :: iAll, basename f :: hs))
    else ([Effect.readFrame f], .error (.valueError ("Image size is not match. " ++ f)))

/-- Conversion of the radius column and the header fix-up (qi2d.py:202-208).
`r2q` is the external geometric conversion, already specialised to the run's
camera length, wavelength and pixel size. -/
def applyCalib (mode : CalibMode) (r2q : ℚ → Fp) (px slope intercept : Fp)
    (r : List ℚ) (headers : List String) : List Fp × List String :=
  match mode with
  | .geometry => (r.map r2q, headers)
  | .linearRegression =>
      (r.map (fun v => Fp.add intercept (Fp.mul slope (Fp.val v))), headers)
  | .noCalib =>
      (r.map (fun v => Fp.mul (Fp.val v) px), headers.set 0 "r[mm]")

/-- The parameter dictionary (qi2d.py:215-233). -/
def mkParams (cfg : Cfg) (mode : CalibMode) (px : Fp) : ParamsRec :=
  { centerX := cfg.centerX
    centerY := cfg.centerY
    calibrationType := calibLabel mode
    pxSize := px
    cameraLength := cfg.cameraLength
    waveLength := cfg.waveLength
    slope := cfg.slope
    intercept := cfg.intercept
    flip := flipLabel cfg.flip }

/-- `tqdm.tqdm(total=n_files)` (qi2d.py:146-147). -/
def stepBar (verbose : Bool) (n : ℕ) : List Effect :=
  if verbose then [.barInit n] else []

/-- The pipeline body after input-set resolution (qi2d.py:146-238), in
source order: progress-bar creation, overwrite guard, pixel-size resolution,
calibration resolution (with its warning), first-frame load for the series
shape, mask resolution, the per-frame loop, calibration application, the
table write, the parameter-record write, and the returned `dst`. -/
def afterFiles (fs : Fs) (r2q : ℚ → Fp) (cfg : Cfg) (files : List String) (dst : String) :
    List Effect × Except Err String :=
  let bt := stepBar cfg.verbose files.length
  if !cfg.overwrite && fs.pathExists dst then
    (bt, .error (.fileExists (dst ++ " is already exists.")))
  else
    match resolvePx cfg.detecter cfg.pxSize with
    | .error e => (bt, .error e)
    | .ok px =>
      let mode := resolveCalib cfg.cameraLength cfg.waveLength cfg.slope cfg.intercept
      let wt := calibWarnTrace mode
      let f0 := files.headD ""
      let img0 := fs.readImg f0
      let rt := [Effect.readFrame f0]
      match resolveMask fs cfg img0.height img0.width with
      | .error e => (bt ++ wt ++ rt, .error e)
      | .ok maskOpt =>
        match processFrames fs cfg maskOpt img0.height img0.width files with
        | (pt, .error e) => (bt ++ wt ++ rt ++ pt, .error e)
        | (pt, .ok out) =>
          let qh := applyCalib mode r2q px cfg.slope cfg.intercept out.1 ("q[nm^-1]" :: out.2.2)
          let paramfile := strReplace dst ".csv" "_params.json"
          let ct := if cfg.verbose then [Effect.barClose] else []
          (bt ++ wt ++ rt ++ pt ++
             [Effect.writeTable dst qh.2 qh.1 out.2.1,
              Effect.writeJson paramfile (mkParams cfg mode px)] ++ ct,
           .ok dst)

/-- `series_integrate(src, **kwargs)`. -/
def seriesIntegrate (fs : Fs) (r2q : ℚ → Fp) (cfg : Cfg) (src : Src) :
    List Effect × Except Err String :=
  match resolveFiles fs src cfg.dst with
  | .error e => ([], .error e)
  | .ok fd => afterFiles fs r2q cfg fd.1 fd.2

/-- `file_integrate(file, **kwargs)` (qi2d.py:77-83): forces
`verbose=False`, delegates to `series_integrate`, and — having no `return`
statement — returns Python `None` (modelled as `Option.none`). -/
def fileIntegrate (fs : Fs) (r2q : ℚ → Fp) (cfg : Cfg) (file : String) :
    List Effect × Except Err (Option String) :=
  let res := seriesIntegrate fs r2q { cfg with verbose := false } (.strSrc file)
  (res.1, res.2.map (fun _ => none))

/-- Output effects: the table write and the parameter-record write. -/
def Effect.isOut : Effect → Bool
  | .writeTable _ _ _ _ => true
  | .writeJson _ _ => true
  | _ => false

instance {ε α : Type} [DecidableEq ε] [DecidableEq α] : DecidableEq (Except ε α) :=
  fun a b =>
    match a, b with
    | .ok x, .ok y =>
        if h : x = y then isTrue (by rw [h])
        else isFalse (fun hc => h (Except.ok.inj hc))
    | .error x, .error y =>
        if h : x = y then isTrue (by rw [h])
        else isFalse (fun hc => h (Except.error.inj hc))
    | .ok _, .error _ => isFalse (fun hc => Except.noConfusion hc)
    | .error _, .ok _ => isFalse (fun hc => Except.noConfusion hc)

/-! ## Concrete inputs used by the witnesses and counterexamples -/

/-- A 2×2 all-valid mask (C8 inputs). -/
def pm22c : PyMask := ⟨2, 2, fun _ _ => 1⟩

/-- A 1×2 image with intensities 3 and 5 (C2 witness input). -/
def imgW : Image := ⟨1, 2, fun _ x => if x = 0 then 3 else 5⟩

/-- A 1×2 binary mask excluding pixel 0 (C2 witness input). -/
def maskW : Image := ⟨1, 2, fun _ x => if x = 0 then 0 else 1⟩

/-- A 1×1 image of intensity 5 (C2 counterexample input). -/
def i11c : Image := ⟨1, 1, fun _ _ => 5⟩

/-- A 1×1 all-zero mask (C2 counterexample input). -/
def m11c : Image := ⟨1, 1, fun _ _ => 0⟩

/-- A 2×2 image of uniform intensity 5; with center `(0, 0)` its radius
bins are `{0, 1, 2}` and bin 2 is empty (C6 witness input). -/
def img22w : Image := ⟨2, 2, fun _ _ => 5⟩

/-- A 1×3 NaN-carrying image whose first two pixels are NaN; with center
`(0, 0)` the first histogram bin of `Saxs2d.radial_average` is empty
(C6 witness input). -/
def fimg13w : FImage := ⟨1, 3, fun _ x => if x = 2 then Fp.val 5 else Fp.nan⟩

/-- A 4×4 image of uniform intensity 7 (C1 witness input). -/
def img44 : Image := ⟨4, 4, fun _ _ => 7⟩

/-- A 5-wide, 6-high zero image.  With beam center `(1, 1)` — strictly
inside — the farthest corner is `(4, 5)` at exact distance
`√(3² + 4²) = 5` (C1 counterexample input). -/
def img56c : Image := ⟨6, 5, fun _ _ => 0⟩

/-- A 1×1 frame of intensity 5 used by the pipeline runs. -/
def img1 : Image := ⟨1, 1, fun _ _ => 5⟩

/-- A 2×1 frame, shape-mismatched against `img1`. -/
def img2 : Image := ⟨2, 1, fun _ _ => 5⟩

/-- A world in which only `a.tif` exists and every read yields `img1`. -/
def fsA : Fs := ⟨fun s => s == "a.tif", fun _ => false, fun _ => [], fun _ => img1⟩

/-- A world in which every path exists (so any destination collides). -/
def fsE : Fs := ⟨fun _ => true, fun _ => false, fun _ => [], fun _ => img1⟩

/-- A world with `a.tif` (1×1) and a shape-mismatched `b.tif` (2×1). -/
def fsS : Fs :=
  ⟨fun s => s == "a.tif" || s == "b.tif", fun _ => false, fun _ => [],
   fun s => if s == "b.tif" then img2 else img1⟩

/-- A world in which only `d.tif` exists and every read yields `img1`. -/
def fsD : Fs := ⟨fun s => s == "d.tif", fun _ => false, fun _ => [], fun _ => img1⟩

/-- A trivial stand-in for the external geometric conversion `r2q`. -/
def r2q0 : ℚ → Fp := fun _ => Fp.val 0

/-- A configuration with center `(0, 0)`, `px_size = 1`, no flip and all
other calibration inputs left at their NaN defaults. -/
def cfgA : Cfg := { centerX := 0, centerY := 0, pxSize := Fp.val 1, flip := "" }

/-- `cfgA` with an explicit destination for an explicit file list. -/
def cfgS : Cfg := { cfgA with dst := "o.csv" }

/-- `cfgA` with the extension-less destination `out.dat` (C7 input). -/
def cfgD : Cfg := { cfgA with dst := "out.dat" }

/-! ## Helper lemmas -/

theorem isqrt_fold (n : ℕ) :
    ∀ m, 1 ≤ m →
      (List.range m).foldl (fun acc k => if k * k ≤ n then k else acc) 0
        = min (m - 1) (Nat.sqrt n) := by
  intro m
  induction m with
  | zero => omega
  | succ m ih =>
    intro _
    rcases Nat.eq_zero_or_pos m with hm | hm
    · subst hm
      simp [List.range_succ]
    · rw [List.range_succ, List.foldl_append, ih hm]
      simp only [List.foldl_cons, List.foldl_nil]
      by_cases hle : m * m ≤ n
      · have : m ≤ Nat.sqrt n := Nat.le_sqrt.mpr (by nlinarith)
        rw [if_pos hle]
        omega
      · have : Nat.sqrt n < m := by
          by_contra hc
          push_neg at hc
          exact hle (by nlinarith [Nat.sqrt_le' n, Nat.le_sqrt'.mp hc])
        rw [if_neg hle]
        omega

/-- `isqrt` agrees with the library integer square root, so `floorDist`
really is the floor of the Euclidean pixel distance. -/
theorem isqrt_eq_sqrt (n : ℕ) : isqrt n = Nat.sqrt n := by
  rw [isqrt, isqrt_fold n (n + 1) (by omega)]
  simpa using Nat.sqrt_le_self n

theorem stepBar_no_out (v : Bool) (n : ℕ) : ∀ e ∈ stepBar v n, e.isOut = false := by
  intro e he
  unfold stepBar at he
  split at he
  · simp only [List.mem_singleton] at he
    subst he
    rfl
  · simp at he

theorem calibWarnTrace_no_out (c : CalibMode) :
    ∀ e ∈ calibWarnTrace c, e.isOut = false := by
  intro e he
  unfold calibWarnTrace at he
  split at he
  · simp only [List.mem_singleton] at he
    subst he
    rfl
  · simp at he

/-- The per-frame loop emits only frame reads and progress ticks — never an
output write. -/
theorem processFrames_no_out (fs : Fs) (cfg : Cfg) (m : Option Image) (h w : ℕ) :
    ∀ files, ∀ e ∈ (processFrames fs cfg m h w files).1, e.isOut = false := by
  intro files
  induction files with
  | nil =>
    intro e he
    simp [processFrames] at he
  | cons f rest ih =>
    intro e he
    simp only [processFrames] at he
    by_cases hs : ((fs.readImg f).height = h ∧ (fs.readImg f).width = w)
    · rw [if_pos hs] at he
      rcases hrec : processFrames fs cfg m h w rest with ⟨tr, res⟩
      rw [hrec] at he
      have hmem : e = Effect.readFrame f
          ∨ e ∈ (if cfg.verbose then [Effect.barUpdate] else []) ∨ e ∈ tr := by
        cases res with
        | error e0 =>
          simpa [List.mem_cons, List.mem_append] using he
        | ok out =>
          simpa [List.mem_cons, List.mem_append] using he
      rcases hmem with hm | hm | hm
      · subst hm; rfl
      · split at hm
        · simp only [List.mem_singleton] at hm
          subst hm; rfl
        · simp at hm
      · exact ih e (by rw [hrec]; exact hm)
    · rw [if_neg hs] at he
      simp only [List.mem_singleton] at he
      subst he
      rfl

/-- The numeric outcome of the per-frame loop does not depend on the
`verbose` flag (which only controls the progress-bar effects). -/
theorem processFrames_verbose_res (fs : Fs) (ms : String) (ma : Option Image)
    (cx cy : ℤ) (cl wl px : Fp) (dt : String) (sl ic : Fp) (fl ds : String)
    (ov v1 v2 : Bool) (m : Option Image) (h w : ℕ) (files : List String) :
    (processFrames fs ⟨ms, ma, cx, cy, cl, wl, px, dt, sl, ic, fl, ds, ov, v1⟩
        m h w files).2
      = (processFrames fs ⟨ms, ma, cx, cy, cl, wl, px, dt, sl, ic, fl, ds, ov, v2⟩
          m h w files).2 := by
  induction files with
  | nil => rfl
  | cons f rest ih =>
    simp only [processFrames]
    by_cases hs : ((fs.readImg f).height = h ∧ (fs.readImg f).width = w)
    · rw [if_pos hs, if_pos hs]
      rcases h1 : processFrames fs ⟨ms, ma, cx, cy, cl, wl, px, dt, sl, ic, fl, ds, ov, v1⟩
          m h w rest with ⟨t1, r1⟩
      rcases h2 : processFrames fs ⟨ms, ma, cx, cy, cl, wl, px, dt, sl, ic, fl, ds, ov, v2⟩
          m h w rest with ⟨t2, r2⟩
      rw [h1, h2] at ih
      have hr : r1 = r2 := ih
      subst hr
      cases r1 with
      | error e0 => rfl
      | ok out => rfl
    · rw [if_neg hs, if_neg hs]

/-- For non-negative slice endpoints `a:b` and an in-bounds index `i`,
Python slice membership is exactly `a ≤ i < b` (clipping to the axis length
is absorbed by `i < n`). -/
theorem sliceMem_nonneg (n : ℕ) (a b : ℤ) (i : ℕ)
    (ha : 0 ≤ a) (hb : 0 ≤ b) (hi : i < n) :
    sliceMem n a b i = true ↔ (a ≤ (i : ℤ) ∧ (i : ℤ) < b) := by
  unfold sliceMem normIdx
  rw [if_neg (by omega), if_neg (by omega)]
  simp only [Bool.and_eq_true, decide_eq_true_eq]
  omega

/-! ## C8: rectangle editing of masks -/

/-- C8 (amended): for NON-NEGATIVE integer arguments, `Mask.add_rectangle`
sets to invalid (and `Mask.remove_rectangle` to valid) exactly the
intersection of `[x, x+width) × [y, y+height)` with the image bounds,
leaving every other pixel unchanged, and no error is ever raised (the
operations are total).  For negative arguments the claim fails because
Python slices interpret them relative to the end of the axis (see the
counterexample). -/
theorem C8_rectangle_clipping_amended
    (m : PyMask) (x y w h : ℤ)
    (hx : 0 ≤ x) (hy : 0 ≤ y) (hw : 0 ≤ w) (hh : 0 ≤ h)
    (yy xx : ℕ) (hyy : yy < m.height) (hxx : xx < m.width) :
    ((m.addRectangle x y w h).grid yy xx =
      if x ≤ (xx : ℤ) ∧ (xx : ℤ) < x + w ∧ y ≤ (yy : ℤ) ∧ (yy : ℤ) < y + h
      then 0 else m.grid yy xx)
    ∧ ((m.removeRectangle x y w h).grid yy xx =
      if x ≤ (xx : ℤ) ∧ (xx : ℤ) < x + w ∧ y ≤ (yy : ℤ) ∧ (yy : ℤ) < y + h
      then 1 else m.grid yy xx) := by
  have hmem : (sliceMem m.height y (y + h) yy && sliceMem m.width x (x + w) xx) = true
      ↔ (x ≤ (xx : ℤ) ∧ (xx : ℤ) < x + w ∧ y ≤ (yy : ℤ) ∧ (yy : ℤ) < y + h) := by
    rw [Bool.and_eq_true, sliceMem_nonneg m.height y (y + h) yy hy (by omega) hyy,
      sliceMem_nonneg m.width x (x + w) xx hx (by omega) hxx]
    constructor
    · rintro ⟨⟨h1, h2⟩, h3, h4⟩; exact ⟨h3, h4, h1, h2⟩
    · rintro ⟨h1, h2, h3, h4⟩; exact ⟨⟨h3, h4⟩, h1, h2⟩
  constructor
  · show (if (sliceMem m.height y (y + h) yy && sliceMem m.width x (x + w) xx) = true
        then 0 else m.grid yy xx) = _
    exact if_congr hmem rfl rfl
  · show (if (sliceMem m.height y (y + h) yy && sliceMem m.width x (x + w) xx) = true
        then 1 else m.grid yy xx) = _
    exact if_congr hmem rfl rfl

/-- C8 (counterexample): `add_rectangle(-3, 0, 2, 1)` on a 2×2 mask.  The
claimed region `[-3, -1) × [0, 1)` intersected with the image bounds is
empty, so per the claim no pixel may change; but the Python slice `-3:-1`
on an axis of length 2 normalises to `0:1`, and the pixel at
`(x, y) = (0, 0)` is invalidated. -/
theorem C8_counterexample :
    (pm22c.addRectangle (-3) 0 2 1).grid 0 0 = 0
    ∧ pm22c.grid 0 0 = 1
    ∧ ¬((-3 : ℤ) ≤ (0 : ℤ) ∧ (0 : ℤ) < -3 + 2 ∧ (0 : ℤ) ≤ (0 : ℤ) ∧ (0 : ℤ) < 0 + 1) := by
  refine ⟨by decide, by decide, by decide⟩

/-- C8 (witness): the amended statement evaluated on the 2×2 mask with the
in-bounds rectangle `(x, y, w, h) = (0, 0, 1, 2)`: pixel `(0, 1)` is inside
and becomes 0, pixel `(1, 1)` is outside and keeps its value. -/
theorem C8_rectangle_clipping_amended_witness :
    ((pm22c.addRectangle 0 0 1 2).grid 1 0 =
      if (0 : ℤ) ≤ (0 : ℤ) ∧ (0 : ℤ) < 0 + 1 ∧ (0 : ℤ) ≤ (1 : ℤ) ∧ (1 : ℤ) < 0 + 2
      then 0 else pm22c.grid 1 0)
    ∧ ((pm22c.removeRectangle 0 0 1 2).grid 1 0 =
      if (0 : ℤ) ≤ (0 : ℤ) ∧ (0 : ℤ) < 0 + 1 ∧ (0 : ℤ) ≤ (1 : ℤ) ∧ (1 : ℤ) < 0 + 2
      then 1 else pm22c.grid 1 0) :=
  C8_rectangle_clipping_amended pm22c 0 0 1 2 (by decide) (by decide) (by decide)
    (by decide) 1 0 (by decide) (by decide)

/-! ## C9: mask save/read round trip -/

/-- C9: saving a mask and reading it back reproduces the binary 0/1 value
pattern exactly, and `read` normalises any stored pixel value `> 0` to
valid (`1`) while `0` stays invalid.  (The single-channel image codec used
by `save`/`read` is modelled as faithful, per spec §6.) -/
theorem C9_mask_roundtrip (m : PyMask) (y x : ℕ) :
    (PyMask.read (PyMask.save m)).value y x = m.value y x
    ∧ (∀ s : StoredImage, (PyMask.read s).grid y x = if 0 < s.px y x then 1 else 0) := by
  constructor
  · by_cases hp : 0 < m.grid y x <;>
      simp [PyMask.read, PyMask.save, PyMask.value, readmaskGrid, hp]
  · intro s; rfl

/-! ## C4: pixel-size resolution -/

/-- C4 (amended): in `series_integrate`'s pixel-size resolution, a
recognised detector identifier (case-insensitively) overrides any explicit
`px_size`; an empty `detecter` requires only a NON-NaN `px_size` — negative,
zero and infinite values are accepted, the "finite and positive" requirement
of the claim is not checked — failing with the `MissingCalibration`
`ValueError` only on NaN; a non-empty unrecognised `detecter` fails with the
`UnknownDetector` `ValueError` naming it. -/
theorem C4_px_resolution_amended :
    (∀ (d : String) (px : Fp) (v : ℚ),
        DETECTER_PX_SIZES (strToUpper d) = some v →
        resolvePx d px = .ok (.val v))
    ∧ (∀ px : Fp, resolvePx "" px =
        if px.isNan then
          .error (.valueError "either `px_size` or `detecter` must be set")
        else .ok px)
    ∧ (∀ (d : String) (px : Fp), d ≠ "" → DETECTER_PX_SIZES (strToUpper d) = none →
        resolvePx d px =
          .error (.valueError ("unrecognized detecter `" ++ d ++ "`"))) := by
  refine ⟨?_, ?_, ?_⟩
  · intro d px v h
    unfold resolvePx
    rw [h]
  · intro px
    unfold resolvePx
    rw [show DETECTER_PX_SIZES (strToUpper "") = none from rfl]
    rfl
  · intro d px hd h
    unfold resolvePx
    rw [h, if_neg hd]

/-- C4 (witness): the three amended clauses at concrete inputs — the
lower-case identifier `pilatus` resolves to 0.172 mm overriding a NaN
`px_size`; an empty identifier accepts the non-NaN (but negative, hence
neither finite-and-positive-checked) `px_size = -1`; the unknown identifier
`FOO` is rejected. -/
theorem C4_px_resolution_amended_witness :
    resolvePx "pilatus" Fp.nan = .ok (.val (43/250))
    ∧ resolvePx "" (Fp.val (-1)) =
        (if (Fp.val (-1)).isNan then
          .error (.valueError "either `px_size` or `detecter` must be set")
        else .ok (Fp.val (-1)))
    ∧ resolvePx "FOO" (Fp.val 1) =
        .error (.valueError ("unrecognized detecter `" ++ "FOO" ++ "`")) :=
  ⟨C4_px_resolution_amended.1 "pilatus" Fp.nan (43/250) rfl,
   C4_px_resolution_amended.2.1 (Fp.val (-1)),
   C4_px_resolution_amended.2.2 "FOO" (Fp.val 1) (by decide) (by decide)⟩

/-- C4 (counterexample): with an empty `detecter` the finite but NEGATIVE
`px_size = -1` is accepted without any error, although the claim requires
the call to fail with `MissingCalibration` unless `px_size` is finite AND
positive. -/
theorem C4_counterexample :
    resolvePx "" (Fp.val (-1)) = .ok (Fp.val (-1))
    ∧ (Fp.val (-1)).isFinite = true
    ∧ ¬(0 < (-1 : ℚ)) := by
  refine ⟨by decide, by decide, by decide⟩

/-! ## C3: calibration-mode resolution -/

/-- C3 (amended): `series_integrate` resolves exactly one calibration mode
with the precedence: `geometry` iff `camera_length > 0` and
`wave_length > 0`; otherwise `linear_regression` iff both `slope` and
`intercept` are NON-NaN (the code tests `np.isnan`, not finiteness, so
infinite values are accepted), in which case `q = intercept + slope * r`;
otherwise `none`, which emits the non-fatal warning (not an error) and
outputs the first column as `r_px * px_size` under the header `"r[mm]"`
instead of `"q[nm^-1]"`. -/
theorem C3_calibration_amended :
    (∀ cl wl s i : Fp, resolveCalib cl wl s i = .geometry ↔
        (cl.gtZero = true ∧ wl.gtZero = true))
    ∧ (∀ cl wl s i : Fp, resolveCalib cl wl s i = .linearRegression ↔
        (¬(cl.gtZero = true ∧ wl.gtZero = true) ∧ s.isNan = false ∧ i.isNan = false))
    ∧ (∀ cl wl s i : Fp, resolveCalib cl wl s i = .noCalib ↔
        (¬(cl.gtZero = true ∧ wl.gtZero = true)
          ∧ ¬(s.isNan = false ∧ i.isNan = false)))
    ∧ (∀ c : CalibMode, calibWarnTrace c = [Effect.warnCal] ↔ c = .noCalib)
    ∧ (∀ (r2q : ℚ → Fp) (px sl ic : Fp) (r : List ℚ) (hs : List String),
        applyCalib .linearRegression r2q px sl ic r hs
          = (r.map (fun v => Fp.add ic (Fp.mul sl (Fp.val v))), hs)
        ∧ applyCalib .noCalib r2q px sl ic r ("q[nm^-1]" :: hs)
          = (r.map (fun v => Fp.mul (Fp.val v) px), "r[mm]" :: hs)) := by
  refine ⟨?_, ?_, ?_, ?_, ?_⟩
  · intro cl wl s i
    unfold resolveCalib
    split_ifs with h1 h2 <;>
      simp_all [Bool.and_eq_true]
  · intro cl wl s i
    unfold resolveCalib
    split_ifs with h1 h2 <;>
      simp_all [Bool.and_eq_true]
  · intro cl wl s i
    unfold resolveCalib
    split_ifs with h1 h2 <;>
      simp_all [Bool.and_eq_true]
  · intro c
    cases c <;> simp [calibWarnTrace]
  · intro r2q px sl ic r hs
    exact ⟨rfl, rfl⟩

/-- C3 (witness): the amended mode-resolution clauses at the spec's own
example inputs (`camera_length = 1000, wave_length = 0.1` gives `geometry`;
only `slope = 0.01, intercept = 0` gives `linear_regression`; all NaN gives
`none` with the warning), plus the `"r[mm]"` output clause at a concrete
radius column. -/
theorem C3_calibration_amended_witness :
    resolveCalib (Fp.val 1000) (Fp.val (1/10)) Fp.nan Fp.nan = .geometry
    ∧ resolveCalib Fp.nan Fp.nan (Fp.val (1/100)) (Fp.val 0) = .linearRegression
    ∧ resolveCalib Fp.nan Fp.nan Fp.nan Fp.nan = .noCalib
    ∧ calibWarnTrace .noCalib = [Effect.warnCal]
    ∧ applyCalib .noCalib (fun _ => Fp.val 0) (Fp.val (43/250)) Fp.nan Fp.nan
        [1/2] ("q[nm^-1]" :: ["a.tif"])
        = ([Fp.mul (Fp.val (1/2)) (Fp.val (43/250))], "r[mm]" :: ["a.tif"]) :=
  ⟨(C3_calibration_amended.1 (Fp.val 1000) (Fp.val (1/10)) Fp.nan Fp.nan).mpr
      (by refine ⟨by norm_num [Fp.gtZero], by norm_num [Fp.gtZero]⟩),
   (C3_calibration_amended.2.1 Fp.nan Fp.nan (Fp.val (1/100)) (Fp.val 0)).mpr
      (by refine ⟨by decide, by decide, by decide⟩),
   (C3_calibration_amended.2.2.1 Fp.nan Fp.nan Fp.nan Fp.nan).mpr
      (by refine ⟨by decide, by decide⟩),
   (C3_calibration_amended.2.2.2.1 .noCalib).mpr rfl,
   (C3_calibration_amended.2.2.2.2 (fun _ => Fp.val 0) (Fp.val (43/250))
      Fp.nan Fp.nan [1/2] ["a.tif"]).2⟩

/-- C3 (counterexample): with `slope = +inf` (not finite, but not NaN) and
`intercept = 0`, and no geometry parameters, the code resolves the mode to
`linear_regression`, although per the claim `linear_regression` requires
both `slope` and `intercept` to be FINITE (so the claim predicts mode
`none` here). -/
theorem C3_counterexample :
    resolveCalib Fp.nan Fp.nan Fp.inf (Fp.val 0) = .linearRegression
    ∧ Fp.isFinite Fp.inf = false := by
  refine ⟨by decide, by decide⟩

/-! ## C2: which pixels contribute to a bin -/

/-- C2 (amended): for a 0/1-valued mask and a POSITIVE threshold (the
kernel's default is 2), a pixel contributes to its radius bin's running sum
and count in `_mask_and_average` exactly when its mask value is nonzero and
its intensity is at least the threshold, and it then contributes its
original (unmasked) intensity.  The positivity restriction is forced by the
counterexample: with `threshold ≤ 0`, a mask-excluded pixel passes the
kernel's `img*mask ≥ threshold` test with value 0 and is counted. -/
theorem C2_mask_contribution_amended
    (img mask : Image) (cx cy : ℤ) (t : ℚ) (ht : 0 < t)
    (hbin : ∀ p ∈ pixelList img.width img.height,
        mask.pix p.2 p.1 = 0 ∨ mask.pix p.2 p.1 = 1)
    (idx : ℕ) :
    cntAt (imgMul img mask) cx cy t idx =
      ((pixelList img.width img.height).filter
        (fun p => (mask.pix p.2 p.1 != 0) && decide (t ≤ img.pix p.2 p.1)
            && (floorDist cx cy p == minR img cx cy + idx))).length
    ∧ sumAt (imgMul img mask) cx cy t idx =
      (((pixelList img.width img.height).filter
        (fun p => (mask.pix p.2 p.1 != 0) && decide (t ≤ img.pix p.2 p.1)
            && (floorDist cx cy p == minR img cx cy + idx))).map
        (fun p => img.pix p.2 p.1)).sum := by
  have hpt : ∀ p ∈ pixelList img.width img.height,
      (decide (t ≤ img.pix p.2 p.1 * mask.pix p.2 p.1)
          && (floorDist cx cy p == minR img cx cy + idx))
        = ((mask.pix p.2 p.1 != 0) && decide (t ≤ img.pix p.2 p.1)
            && (floorDist cx cy p == minR img cx cy + idx)) := by
    intro p hp
    rcases hbin p hp with h0 | h1
    · simp [h0, show ¬(t ≤ 0) from not_le.mpr ht]
    · have h10 : ((1 : ℚ) != 0) = true := by simp
      simp [h1, h10]
  have hcnt : cntAt (imgMul img mask) cx cy t idx =
      ((pixelList img.width img.height).filter
        (fun p => decide (t ≤ img.pix p.2 p.1 * mask.pix p.2 p.1)
            && (floorDist cx cy p == minR img cx cy + idx))).length := rfl
  have hsum : sumAt (imgMul img mask) cx cy t idx =
      (((pixelList img.width img.height).filter
        (fun p => decide (t ≤ img.pix p.2 p.1 * mask.pix p.2 p.1)
            && (floorDist cx cy p == minR img cx cy + idx))).map
        (fun p => img.pix p.2 p.1 * mask.pix p.2 p.1)).sum := rfl
  constructor
  · rw [hcnt, List.filter_congr hpt]
  · rw [hsum, List.filter_congr hpt]
    congr 1
    apply List.map_congr_left
    intro p hp
    rcases List.mem_filter.mp hp with ⟨hpl, hpq⟩
    rcases hbin p hpl with h0 | h1
    · rw [h0] at hpq
      simp at hpq
    · rw [h1, mul_one]

/-- C2 (witness): the amended statement at the default threshold 2 on a
1×2 image whose first pixel is mask-excluded, for bin 1 (the bin of the
second pixel). -/
theorem C2_mask_contribution_amended_witness :
    (0 : ℚ) < 2
    ∧ (cntAt (imgMul imgW maskW) 0 0 2 1 =
        ((pixelList imgW.width imgW.height).filter
          (fun p => (maskW.pix p.2 p.1 != 0) && decide ((2:ℚ) ≤ imgW.pix p.2 p.1)
              && (floorDist 0 0 p == minR imgW 0 0 + 1))).length
      ∧ sumAt (imgMul imgW maskW) 0 0 2 1 =
        (((pixelList imgW.width imgW.height).filter
          (fun p => (maskW.pix p.2 p.1 != 0) && decide ((2:ℚ) ≤ imgW.pix p.2 p.1)
              && (floorDist 0 0 p == minR imgW 0 0 + 1))).map
          (fun p => imgW.pix p.2 p.1)).sum) :=
  ⟨by norm_num,
   C2_mask_contribution_amended imgW maskW 0 0 2 (by norm_num)
     (by intro p hp; by_cases h : p.1 = 0 <;> simp [maskW, h]) 1⟩

/-- C2 (counterexample): with threshold 0 (the claim quantifies over every
threshold) and a mask that excludes the only pixel, the kernel still counts
the pixel — `cnt[0] = 1` — because `img*mask = 0 ≥ 0`, while per the claim
the pixel must be excluded from its bin's count (which would give 0). -/
theorem C2_counterexample :
    cntAt (imgMul i11c m11c) 0 0 0 0 = 1
    ∧ m11c.pix 0 0 = 0
    ∧ ((pixelList i11c.width i11c.height).filter
        (fun p => (m11c.pix p.2 p.1 != 0) && decide ((0:ℚ) ≤ i11c.pix p.2 p.1)
            && (floorDist 0 0 p == minR i11c 0 0 + 0))).length = 0 := by
  refine ⟨?_, rfl, ?_⟩
  · norm_num [cntAt, binPixels, pixelList, imgMul, i11c, m11c, minR, listMin,
      floorDist, distSq, isqrt, List.range_succ, List.filter]
  · norm_num [pixelList, i11c, m11c, List.range_succ, List.filter]

/-! ## C6: the two distinct empty-bin behaviours -/

/-- C6: in the pixel-plane kernel `_radial_average`, every radius bin with
zero contributing pixels reports mean intensity exactly 0 (not NaN) and is
retained in the output; in the region-averaging variant
`Saxs2d.radial_average`, an empty histogram bin yields NaN (from the
suppressed float division `0.0 / 0`); and these two values are distinct. -/
theorem C6_empty_bin_semantics :
    (∀ (img : Image) (cx cy : ℤ) (t : ℚ) (idx : ℕ),
        idx < rRange img cx cy →
        cntAt img cx cy t idx = 0 →
        (radialAverage img cx cy t).2.get? idx = some 0)
    ∧ (∀ (f : FImage) (cx cy : ℤ) (j : ℕ) (px2q : ℚ),
        j < s2dRmax f cx cy →
        s2dCnt f cx cy j = 0 →
        (s2dRadialAverage f px2q cx cy).1.get? j = some Fp.nan)
    ∧ Fp.val 0 ≠ Fp.nan := by
  refine ⟨?_, ?_, by decide⟩
  · intro img cx cy t idx hidx hcnt
    show ((List.range (rRange img cx cy)).map (fun k => iAt img cx cy t k)).get? idx
        = some 0
    rw [List.get?_map, List.get?_range hidx]
    simp [iAt, hcnt]
  · intro f cx cy j px2q hj hcnt
    show ((List.range (s2dRmax f cx cy)).map (fun k => s2dIntensity f cx cy k)).get? j
        = some Fp.nan
    rw [List.get?_map, List.get?_range hj]
    have hnil : s2dBinPixels f cx cy j = [] := List.length_eq_zero.mp hcnt
    simp [s2dIntensity, s2dSum, hnil, s2dCnt, Fp.div]

/-- C6 (witness): both clauses at concrete inputs — bin 2 of the 2×2 image
(no pixel at floor-distance 2) reports 0, and bin 0 of the 1×3 NaN-headed
image reports NaN in the `Saxs2d` variant. -/
theorem C6_empty_bin_semantics_witness :
    2 < rRange img22w 0 0
    ∧ cntAt img22w 0 0 2 2 = 0
    ∧ (radialAverage img22w 0 0 2).2.get? 2 = some 0
    ∧ 0 < s2dRmax fimg13w 0 0
    ∧ s2dCnt fimg13w 0 0 0 = 0
    ∧ (s2dRadialAverage fimg13w 1 0 0).1.get? 0 = some Fp.nan :=
  ⟨by decide, by decide,
   C6_empty_bin_semantics.1 img22w 0 0 2 2 (by decide) (by decide),
   by decide, by decide,
   C6_empty_bin_semantics.2.1 fimg13w 0 0 0 1 (by decide) (by decide)⟩

/-! ## C1: the radius-bin grid of `_radial_average` -/

/-- C1 (amended): for every image and every beam center strictly inside the
image bounds, `_radial_average` returns a strictly increasing sequence of
radius bin centers on the half-integer grid starting at
`floor(min_distance) + 0.5`, with one intensity per bin, and the number of
bins equals `floor(max_distance) + 1 - floor(min_distance) + 1` — computed
from the ENTIRE image, independent of mask and threshold.  This equals the
claim's `ceil(max_distance) - floor(min_distance) + 1` whenever the maximum
distance is not an exact integer, but is one more when it is (see the
counterexample), because the code uses `int(r_mesh.max()) + 1`, not a
ceiling. -/
theorem C1_radial_bins_amended
    (img : Image) (cx cy : ℤ) (t : ℚ)
    (hcx0 : 0 < cx) (hcx1 : cx < (img.width : ℤ) - 1)
    (hcy0 : 0 < cy) (hcy1 : cy < (img.height : ℤ) - 1) :
    (radialAverage img cx cy t).1.Pairwise (· < ·)
    ∧ (radialAverage img cx cy t).1.length
        = maxRf img cx cy + 1 - minR img cx cy + 1
    ∧ (radialAverage img cx cy t).2.length = (radialAverage img cx cy t).1.length
    ∧ ∀ k, k < rRange img cx cy →
        (radialAverage img cx cy t).1.get? k
          = some ((minR img cx cy : ℚ) + 1/2 + (k : ℚ)) := by
  refine ⟨?_, ?_, ?_, ?_⟩
  · show ((List.range (rRange img cx cy)).map
        (fun k : ℕ => (minR img cx cy : ℚ) + 1/2 + (k : ℚ))).Pairwise (· < ·)
    have h2 : (List.range (rRange img cx cy)).Pairwise
        (fun a b => (fun k : ℕ => (minR img cx cy : ℚ) + 1/2 + (k : ℚ)) a
          < (fun k : ℕ => (minR img cx cy : ℚ) + 1/2 + (k : ℚ)) b) := by
      refine (List.pairwise_lt_range _).imp ?_
      intro a b hab
      simp only []
      have hq : (a : ℚ) < (b : ℚ) := by exact_mod_cast hab
      linarith
    exact List.pairwise_map.mpr h2
  · show ((List.range (rRange img cx cy)).map
        (fun k : ℕ => (minR img cx cy : ℚ) + 1/2 + (k : ℚ))).length = _
    rw [List.length_map, List.length_range]
    rfl
  · show ((List.range (rRange img cx cy)).map (fun k => iAt img cx cy t k)).length
        = ((List.range (rRange img cx cy)).map
            (fun k : ℕ => (minR img cx cy : ℚ) + 1/2 + (k : ℚ))).length
    rw [List.length_map, List.length_map]
  · intro k hk
    show ((List.range (rRange img cx cy)).map
        (fun k : ℕ => (minR img cx cy : ℚ) + 1/2 + (k : ℚ))).get? k = _
    rw [List.get?_map, List.get?_range hk]
    rfl

/-- C1 (witness): the amended statement on the 4×4 image with center
`(1, 1)` (strictly inside). -/
theorem C1_radial_bins_amended_witness :
    ((0 : ℤ) < 1 ∧ (1 : ℤ) < (img44.width : ℤ) - 1
      ∧ (0 : ℤ) < 1 ∧ (1 : ℤ) < (img44.height : ℤ) - 1)
    ∧ (radialAverage img44 1 1 2).1.Pairwise (· < ·)
    ∧ (radialAverage img44 1 1 2).1.length
        = maxRf img44 1 1 + 1 - minR img44 1 1 + 1 :=
  ⟨⟨by decide, by decide, by decide, by decide⟩,
   (C1_radial_bins_amended img44 1 1 2 (by decide) (by decide) (by decide)
      (by decide)).1,
   (C1_radial_bins_amended img44 1 1 2 (by decide) (by decide) (by decide)
      (by decide)).2.1⟩

/-- C1 (counterexample): the 5-wide, 6-high image with beam center `(1, 1)`
strictly inside.  The minimum squared distance is 0 and the maximum is
`3² + 4² = 25`, an exact square, so `max_distance = √25 = 5` exactly and the
claim's bin count `⌈max⌉ - ⌊min⌋ + 1 = 5 - 0 + 1 = 6`, but the kernel
returns 7 bins (`int(max) + 1 - int(min) + 1 = 6 - 0 + 1`). -/
theorem C1_counterexample :
    (radialAverage img56c 1 1 2).1.length = 7
    ∧ (radialAverage img56c 1 1 2).2.length = 7
    ∧ listMax ((pixelList img56c.width img56c.height).map (distSq 1 1)) = 25
    ∧ listMin ((pixelList img56c.width img56c.height).map (distSq 1 1)) = 0
    ∧ Real.sqrt 25 = 5
    ∧ Real.sqrt 0 = 0
    ∧ (⌈(5 : ℝ)⌉ - ⌊(0 : ℝ)⌋ + 1 : ℤ) = 6
    ∧ ((0 : ℤ) < 1 ∧ (1 : ℤ) < (img56c.width : ℤ) - 1
        ∧ (0 : ℤ) < 1 ∧ (1 : ℤ) < (img56c.height : ℤ) - 1) := by
  refine ⟨by decide, by decide, by decide, by decide, ?_, Real.sqrt_zero, ?_,
    by decide, by decide, by decide, by decide⟩
  · rw [show (25 : ℝ) = 5 ^ 2 by norm_num]
    exact Real.sqrt_sq (by norm_num)
  · norm_num

/-! ## C5: fail-fast guards and all-or-nothing output -/

/-- C5: (1) when the resolved destination already exists and `overwrite` is
false, `series_integrate` raises `FileExistsError` with only the
progress-bar construction in its trace — before any frame is read; (2) the
per-frame loop fails on the first frame whose shape differs from the
series shape, with a `ValueError` naming the offending file; (3) such a
loop failure (after the earlier stages passed) is the result of the whole
batch; and (4) whenever `series_integrate` raises, neither the output
table nor the parameter record has been written. -/
theorem C5_failfast_no_partial_output :
    (∀ (fs : Fs) (r2q : ℚ → Fp) (cfg : Cfg) (src : Src)
        (files : List String) (dst : String),
        resolveFiles fs src cfg.dst = .ok (files, dst) →
        cfg.overwrite = false → fs.pathExists dst = true →
        seriesIntegrate fs r2q cfg src
          = (stepBar cfg.verbose files.length,
             .error (.fileExists (dst ++ " is already exists."))))
    ∧ (∀ (fs : Fs) (cfg : Cfg) (m : Option Image) (h w : ℕ)
        (pre : List String) (f : String) (post : List String),
        (∀ g ∈ pre, (fs.readImg g).height = h ∧ (fs.readImg g).width = w) →
        ¬((fs.readImg f).height = h ∧ (fs.readImg f).width = w) →
        (processFrames fs cfg m h w (pre ++ f :: post)).2
          = .error (.valueError ("Image size is not match. " ++ f)))
    ∧ (∀ (fs : Fs) (r2q : ℚ → Fp) (cfg : Cfg) (src : Src)
        (files : List String) (dst : String) (px : Fp) (m : Option Image)
        (tr : List Effect) (e : Err),
        resolveFiles fs src cfg.dst = .ok (files, dst) →
        (!cfg.overwrite && fs.pathExists dst) = false →
        resolvePx cfg.detecter cfg.pxSize = .ok px →
        resolveMask fs cfg (fs.readImg (files.headD "")).height
            (fs.readImg (files.headD "")).width = .ok m →
        processFrames fs cfg m (fs.readImg (files.headD "")).height
            (fs.readImg (files.headD "")).width files = (tr, .error e) →
        (seriesIntegrate fs r2q cfg src).2 = .error e)
    ∧ (∀ (fs : Fs) (r2q : ℚ → Fp) (cfg : Cfg) (src : Src) (e : Err),
        (seriesIntegrate fs r2q cfg src).2 = .error e →
        ∀ eff ∈ (seriesIntegrate fs r2q cfg src).1, eff.isOut = false) := by
  refine ⟨?_, ?_, ?_, ?_⟩
  · intro fs r2q cfg src files dst hres hov hex
    simp only [seriesIntegrate, hres]
    simp only [afterFiles]
    rw [if_pos (by rw [hov, hex]; rfl)]
  · intro fs cfg m h w pre
    induction pre with
    | nil =>
      intro f post _ hbad
      simp only [List.nil_append, processFrames]
      rw [if_neg hbad]
    | cons g gs ih =>
      intro f post hpre hbad
      have hg := hpre g (by simp)
      simp only [List.cons_append, processFrames]
      rw [if_pos hg]
      rcases hrec : processFrames fs cfg m h w (gs ++ f :: post) with ⟨tr, res⟩
      have h2 : res = .error (.valueError ("Image size is not match. " ++ f)) := by
        have := ih f post (fun x hx => hpre x (by simp [hx])) hbad
        rw [hrec] at this
        exact this
      subst h2
      rfl
  · intro fs r2q cfg src files dst px m tr e hres hov hpx hmk hpf
    simp only [seriesIntegrate, hres]
    simp only [afterFiles]
    rw [if_neg (by rw [hov]; exact Bool.false_ne_true)]
    rw [hpx]
    simp only []
    rw [hmk]
    simp only []
    rw [hpf]
  · intro fs r2q cfg src e hser eff heff
    simp only [seriesIntegrate] at hser heff
    rcases hrf : resolveFiles fs src cfg.dst with e0 | fd
    · rw [hrf] at heff
      simp at heff
    · rw [hrf] at hser heff
      simp only [afterFiles] at hser heff
      by_cases hov : (!cfg.overwrite && fs.pathExists fd.2) = true
      · rw [if_pos hov] at heff
        exact stepBar_no_out _ _ eff heff
      · rw [if_neg hov] at hser heff
        rcases hpx : resolvePx cfg.detecter cfg.pxSize with e1 | px
        · rw [hpx] at heff
          exact stepBar_no_out _ _ eff heff
        · rw [hpx] at hser heff
          simp only [] at hser heff
          rcases hmk : resolveMask fs cfg (fs.readImg (fd.1.headD "")).height
              (fs.readImg (fd.1.headD "")).width with e2 | mopt
          · rw [hmk] at heff
            simp only [List.mem_append] at heff
            rcases heff with (h1 | h1) | h1
            · exact stepBar_no_out _ _ eff h1
            · exact calibWarnTrace_no_out _ eff h1
            · simp only [List.mem_singleton] at h1
              subst h1
              rfl
          · rw [hmk] at hser heff
            simp only [] at hser heff
            rcases hpf : processFrames fs cfg mopt (fs.readImg (fd.1.headD "")).height
                (fs.readImg (fd.1.headD "")).width fd.1 with ⟨pt, pres⟩
            rw [hpf] at hser heff
            cases pres with
            | error e3 =>
              simp only [List.mem_append] at heff
              rcases heff with ((h1 | h1) | h1) | h1
              · exact stepBar_no_out _ _ eff h1
              · exact calibWarnTrace_no_out _ eff h1
              · simp only [List.mem_singleton] at h1
                subst h1
                rfl
              · exact processFrames_no_out fs cfg mopt _ _ fd.1 eff (by rw [hpf]; exact h1)
            | ok out =>
              simp at hser

/-- C5 (witness): all four clauses at concrete inputs — an existing
destination (`fsE` makes every path exist) aborts with only the bar-init
effect; the 2×1 frame `b.tif` after the 1×1 frame `a.tif` yields the
shape-mismatch `ValueError` naming `b.tif`; that loop error is the result
of the whole `series_integrate` call; and the trace of the aborted
existing-destination run contains no output writes. -/
theorem C5_failfast_no_partial_output_witness :
    seriesIntegrate fsE r2q0 cfgA (.strSrc "a.tif")
      = (stepBar cfgA.verbose ["a.tif"].length,
         .error (.fileExists ("a.csv" ++ " is already exists.")))
    ∧ (processFrames fsS cfgS none 1 1 (["a.tif"] ++ "b.tif" :: [])).2
        = .error (.valueError ("Image size is not match. " ++ "b.tif"))
    ∧ (seriesIntegrate fsS r2q0 cfgS (.listSrc ["a.tif", "b.tif"])).2
        = .error (.valueError ("Image size is not match. " ++ "b.tif"))
    ∧ ∀ eff ∈ (seriesIntegrate fsE r2q0 cfgA (.strSrc "a.tif")).1, eff.isOut = false :=
  ⟨C5_failfast_no_partial_output.1 fsE r2q0 cfgA (.strSrc "a.tif") ["a.tif"] "a.csv"
      (by decide) (by decide) (by decide),
   C5_failfast_no_partial_output.2.1 fsS cfgS none 1 1 ["a.tif"] "b.tif" []
      (by decide) (by decide),
   C5_failfast_no_partial_output.2.2.1 fsS r2q0 cfgS (.listSrc ["a.tif", "b.tif"])
      ["a.tif", "b.tif"] "o.csv" (Fp.val 1) none
      [Effect.readFrame "a.tif", Effect.barUpdate, Effect.readFrame "b.tif"]
      (.valueError ("Image size is not match. " ++ "b.tif"))
      (by decide) (by decide) (by decide) rfl (by decide),
   C5_failfast_no_partial_output.2.2.2 fsE r2q0 cfgA (.strSrc "a.tif")
      (.fileExists ("a.csv" ++ " is already exists.")) (by decide)⟩

/-! ## C7: the persisted parameter record -/

/-- C7 (amended): every successful `series_integrate` run writes the
parameter record — whatever the resolved calibration mode, `none` included —
at the path obtained from `dst` by replacing `".csv"` with `"_params.json"`,
capturing beam center x/y, the resolved calibration type, the resolved pixel
size, camera length, wavelength, slope, intercept and the applied flip
label.  The record path is distinct from `dst` whenever `dst` contains
`".csv"` (in particular for every default-derived destination), but NOT in
general: for a destination without `".csv"` the replacement leaves the path
unchanged and the record overwrites the table (see the counterexample). -/
theorem C7_param_record_amended
    (fs : Fs) (r2q : ℚ → Fp) (cfg : Cfg) (src : Src) (tr : List Effect) (d : String)
    (hrun : seriesIntegrate fs r2q cfg src = (tr, .ok d)) :
    ∃ px : Fp, resolvePx cfg.detecter cfg.pxSize = .ok px
      ∧ Effect.writeJson (strReplace d ".csv" "_params.json")
          { centerX := cfg.centerX
            centerY := cfg.centerY
            calibrationType := calibLabel
              (resolveCalib cfg.cameraLength cfg.waveLength cfg.slope cfg.intercept)
            pxSize := px
            cameraLength := cfg.cameraLength
            waveLength := cfg.waveLength
            slope := cfg.slope
            intercept := cfg.intercept
            flip := flipLabel cfg.flip } ∈ tr := by
  simp only [seriesIntegrate] at hrun
  rcases hrf : resolveFiles fs src cfg.dst with e0 | fd
  · rw [hrf] at hrun
    simp at hrun
  · rw [hrf] at hrun
    simp only [afterFiles] at hrun
    by_cases hov : (!cfg.overwrite && fs.pathExists fd.2) = true
    · rw [if_pos hov] at hrun
      simp at hrun
    · rw [if_neg hov] at hrun
      rcases hpx : resolvePx cfg.detecter cfg.pxSize with e1 | px
      · rw [hpx] at hrun
        simp at hrun
      · rw [hpx] at hrun
        simp only [] at hrun
        rcases hmk : resolveMask fs cfg (fs.readImg (fd.1.headD "")).height
            (fs.readImg (fd.1.headD "")).width with e2 | mopt
        · rw [hmk] at hrun
          simp at hrun
        · rw [hmk] at hrun
          simp only [] at hrun
          rcases hpf : processFrames fs cfg mopt (fs.readImg (fd.1.headD "")).height
              (fs.readImg (fd.1.headD "")).width fd.1 with ⟨pt, pres⟩
          rw [hpf] at hrun
          cases pres with
          | error e3 => simp at hrun
          | ok out =>
            dsimp only at hrun
            rw [Prod.mk.injEq] at hrun
            obtain ⟨htr, hd0⟩ := hrun
            have hd : fd.2 = d := Except.ok.inj hd0
            refine ⟨px, rfl, ?_⟩
            rw [← htr, ← hd]
            simp [mkParams, List.mem_append]

/-- C7 (witness): on the concrete successful run over `a.tif` (resolved
destination `a.csv`, calibration mode `none`), the parameter record is
written at `a_params.json` with all nine fields. -/
theorem C7_param_record_amended_witness :
    ∃ px : Fp, resolvePx cfgA.detecter cfgA.pxSize = .ok px
      ∧ Effect.writeJson (strReplace "a.csv" ".csv" "_params.json")
          { centerX := cfgA.centerX
            centerY := cfgA.centerY
            calibrationType := calibLabel
              (resolveCalib cfgA.cameraLength cfgA.waveLength cfgA.slope cfgA.intercept)
            pxSize := px
            cameraLength := cfgA.cameraLength
            waveLength := cfgA.waveLength
            slope := cfgA.slope
            intercept := cfgA.intercept
            flip := flipLabel cfgA.flip }
        ∈ (seriesIntegrate fsA r2q0 cfgA (.strSrc "a.tif")).1 := by
  have h2 : (seriesIntegrate fsA r2q0 cfgA (.strSrc "a.tif")).2 = .ok "a.csv" := by
    decide
  exact C7_param_record_amended fsA r2q0 cfgA (.strSrc "a.tif")
    (seriesIntegrate fsA r2q0 cfgA (.strSrc "a.tif")).1 "a.csv" (by rw [← h2])

/-- C7 (counterexample): with the extension-less destination `out.dat`
(reachable: an explicit `dst` is kept verbatim), the run succeeds but
`"out.dat".replace(".csv", "_params.json") = "out.dat"`, so the parameter
record's path is NOT distinct from `dst` — the record is written over the
just-written table, contradicting the claimed sibling-with-distinct-path
property. -/
theorem C7_counterexample :
    (seriesIntegrate fsD r2q0 cfgD (.strSrc "d.tif")).2 = .ok "out.dat"
    ∧ strReplace "out.dat" ".csv" "_params.json" = "out.dat"
    ∧ Effect.writeJson "out.dat"
        { centerX := 0
          centerY := 0
          calibrationType := "none"
          pxSize := Fp.val 1
          cameraLength := Fp.nan
          waveLength := Fp.nan
          slope := Fp.nan
          intercept := Fp.nan
          flip := "none" }
      ∈ (seriesIntegrate fsD r2q0 cfgD (.strSrc "d.tif")).1 := by
  refine ⟨by decide, by decide, by decide⟩

/-! ## C10: `file_integrate` as the single-frame case -/

theorem filter_out_stepBar (v : Bool) (n : ℕ) :
    (stepBar v n).filter Effect.isOut = [] := by
  unfold stepBar
  split <;> rfl

theorem filter_out_warn (c : CalibMode) :
    (calibWarnTrace c).filter Effect.isOut = [] := by
  unfold calibWarnTrace
  split <;> rfl

theorem filter_out_bar_close (b : Bool) :
    (if b = true then [Effect.barClose] else []).filter Effect.isOut = [] := by
  cases b <;> rfl

theorem filter_out_processFrames (fs : Fs) (cfg : Cfg) (m : Option Image)
    (h w : ℕ) (files : List String) :
    ((processFrames fs cfg m h w files).1).filter Effect.isOut = [] :=
  List.filter_eq_nil.mpr
    (fun a ha => by simp [processFrames_no_out fs cfg m h w files a ha])

/-- The result and the written artifacts of the pipeline body do not depend
on the `verbose` flag, which only adds progress-bar effects to the trace. -/
theorem afterFiles_verbose (fs : Fs) (r2q : ℚ → Fp) (ms : String) (ma : Option Image)
    (cx cy : ℤ) (cl wl px : Fp) (dt : String) (sl ic : Fp) (fl ds : String)
    (ov v1 v2 : Bool) (files : List String) (dst : String) :
    (afterFiles fs r2q ⟨ms, ma, cx, cy, cl, wl, px, dt, sl, ic, fl, ds, ov, v1⟩
        files dst).2
      = (afterFiles fs r2q ⟨ms, ma, cx, cy, cl, wl, px, dt, sl, ic, fl, ds, ov, v2⟩
          files dst).2
    ∧ (afterFiles fs r2q ⟨ms, ma, cx, cy, cl, wl, px, dt, sl, ic, fl, ds, ov, v1⟩
        files dst).1.filter Effect.isOut
      = (afterFiles fs r2q ⟨ms, ma, cx, cy, cl, wl, px, dt, sl, ic, fl, ds, ov, v2⟩
          files dst).1.filter Effect.isOut := by
  simp only [afterFiles]
  by_cases hov : (!ov && fs.pathExists dst) = true
  · rw [if_pos hov, if_pos hov]
    exact ⟨rfl, by rw [filter_out_stepBar, filter_out_stepBar]⟩
  · rw [if_neg hov, if_neg hov]
    rcases hpx : resolvePx dt px with e1 | pxv
    · exact ⟨rfl, by
        show (stepBar v1 files.length).filter Effect.isOut
          = (stepBar v2 files.length).filter Effect.isOut
        rw [filter_out_stepBar, filter_out_stepBar]⟩
    · dsimp only
      rcases hmk : resolveMask fs ⟨ms, ma, cx, cy, cl, wl, px, dt, sl, ic, fl, ds, ov, v1⟩
          (fs.readImg (files.headD "")).height (fs.readImg (files.headD "")).width
        with e2 | mopt
      · have hmk2 : resolveMask fs ⟨ms, ma, cx, cy, cl, wl, px, dt, sl, ic, fl, ds, ov, v2⟩
            (fs.readImg (files.headD "")).height (fs.readImg (files.headD "")).width
            = .error e2 := hmk
        rw [hmk2]
        refine ⟨rfl, ?_⟩
        simp [List.filter_append, filter_out_stepBar, filter_out_warn, Effect.isOut]
      · have hmk2 : resolveMask fs ⟨ms, ma, cx, cy, cl, wl, px, dt, sl, ic, fl, ds, ov, v2⟩
            (fs.readImg (files.headD "")).height (fs.readImg (files.headD "")).width
            = .ok mopt := hmk
        rw [hmk2]
        dsimp only
        rcases hp1 : processFrames fs ⟨ms, ma, cx, cy, cl, wl, px, dt, sl, ic, fl, ds, ov, v1⟩
            mopt (fs.readImg (files.headD "")).height (fs.readImg (files.headD "")).width
            files with ⟨t1, r1⟩
        rcases hp2 : processFrames fs ⟨ms, ma, cx, cy, cl, wl, px, dt, sl, ic, fl, ds, ov, v2⟩
            mopt (fs.readImg (files.headD "")).height (fs.readImg (files.headD "")).width
            files with ⟨t2, r2⟩
        have hr : r1 = r2 := by
          have hv := processFrames_verbose_res fs ms ma cx cy cl wl px dt sl ic fl ds ov
            v1 v2 mopt (fs.readImg (files.headD "")).height
            (fs.readImg (files.headD "")).width files
          rw [hp1, hp2] at hv
          exact hv
        subst hr
        have hf1 : t1.filter Effect.isOut = [] := by
          have := filter_out_processFrames fs
            ⟨ms, ma, cx, cy, cl, wl, px, dt, sl, ic, fl, ds, ov, v1⟩ mopt
            (fs.readImg (files.headD "")).height (fs.readImg (files.headD "")).width files
          rw [hp1] at this
          exact this
        have hf2 : t2.filter Effect.isOut = [] := by
          have := filter_out_processFrames fs
            ⟨ms, ma, cx, cy, cl, wl, px, dt, sl, ic, fl, ds, ov, v2⟩ mopt
            (fs.readImg (files.headD "")).height (fs.readImg (files.headD "")).width files
          rw [hp2] at this
          exact this
        cases r1 with
        | error e3 =>
          refine ⟨rfl, ?_⟩
          simp [List.filter_append, filter_out_stepBar, filter_out_warn, hf1, hf2,
            Effect.isOut]
        | ok out =>
          refine ⟨rfl, ?_⟩
          have hmp : mkParams ⟨ms, ma, cx, cy, cl, wl, px, dt, sl, ic, fl, ds, ov, v1⟩
              (resolveCalib cl wl sl ic) pxv
              = mkParams ⟨ms, ma, cx, cy, cl, wl, px, dt, sl, ic, fl, ds, ov, v2⟩
                (resolveCalib cl wl sl ic) pxv := rfl
          simp [List.filter_append, filter_out_stepBar, filter_out_warn, hf1, hf2,
            filter_out_bar_close, hmp, Effect.isOut]

/-- C10 (amended): `file_integrate` is definitionally `series_integrate` on
the single file with `verbose` forced off; on success it returns Python
`None` (not the output path — see the counterexample); and the `verbose`
flag affects neither the returned result nor the written artifacts, so the
two output artifacts are identical to those of `series_integrate` however
`verbose` was passed by the caller. -/
theorem C10_file_integrate_amended :
    (∀ (fs : Fs) (r2q : ℚ → Fp) (cfg : Cfg) (f : String),
        fileIntegrate fs r2q cfg f
          = ((seriesIntegrate fs r2q { cfg with verbose := false } (.strSrc f)).1,
             (seriesIntegrate fs r2q { cfg with verbose := false } (.strSrc f)).2.map
               (fun _ => (none : Option String))))
    ∧ (∀ (fs : Fs) (r2q : ℚ → Fp) (cfg : Cfg) (f : String) (d : String),
        (seriesIntegrate fs r2q { cfg with verbose := false } (.strSrc f)).2 = .ok d →
        (fileIntegrate fs r2q cfg f).2 = .ok none)
    ∧ (∀ (fs : Fs) (r2q : ℚ → Fp) (cfg : Cfg) (src : Src),
        (seriesIntegrate fs r2q { cfg with verbose := true } src).2
          = (seriesIntegrate fs r2q { cfg with verbose := false } src).2
        ∧ (seriesIntegrate fs r2q { cfg with verbose := true } src).1.filter
            Effect.isOut
          = (seriesIntegrate fs r2q { cfg with verbose := false } src).1.filter
            Effect.isOut) := by
  refine ⟨?_, ?_, ?_⟩
  · intro fs r2q cfg f
    rfl
  · intro fs r2q cfg f d hok
    simp [fileIntegrate, hok, Except.map]
  · intro fs r2q cfg src
    obtain ⟨ms, ma, cx, cy, cl, wl, px, dt, sl, ic, fl, ds, ov, v⟩ := cfg
    simp only [seriesIntegrate]
    rcases hrf : resolveFiles fs src ds with e0 | fd
    · exact ⟨rfl, rfl⟩
    · exact afterFiles_verbose fs r2q ms ma cx cy cl wl px dt sl ic fl ds ov
        true false fd.1 fd.2

/-- C10 (witness): the `verbose`-independence and the `None` return on the
concrete single-frame run over `a.tif`. -/
theorem C10_file_integrate_amended_witness :
    ((seriesIntegrate fsA r2q0 cfgA (.strSrc "a.tif")).2 = .ok "a.csv")
    ∧ (fileIntegrate fsA r2q0 cfgA "a.tif").2 = .ok none
    ∧ (seriesIntegrate fsA r2q0 { cfgA with verbose := true } (.strSrc "a.tif")).1.filter
        Effect.isOut
      = (seriesIntegrate fsA r2q0 { cfgA with verbose := false } (.strSrc "a.tif")).1.filter
        Effect.isOut :=
  ⟨by decide,
   C10_file_integrate_amended.2.1 fsA r2q0 cfgA "a.tif" "a.csv" (by decide),
   (C10_file_integrate_amended.2.2 fsA r2q0 cfgA (.strSrc "a.tif")).2⟩

/-- C10 (counterexample): on the successful single-frame run the pipeline
contract says the output path is returned, and `series_integrate` indeed
returns `"a.csv"`; but `file_integrate` has no `return` statement and
returns Python `None`, not the output path. -/
theorem C10_counterexample :
    (fileIntegrate fsA r2q0 cfgA "a.tif").2 = .ok none
    ∧ (seriesIntegrate fsA r2q0 { cfgA with verbose := false } (.strSrc "a.tif")).2
        = .ok "a.csv"
    ∧ (Except.ok (some "a.csv") : Except Err (Option String))
        ≠ (fileIntegrate fsA r2q0 cfgA "a.tif").2 := by
  refine ⟨by decide, by decide, by decide⟩

end SpectraSpark
